import Mathlib

/-!
Verification of the Subscribehub payment settlement core against its
natural-language specification.

The definitions below are a shallow embedding of the repository source:
* `processPaymentWebhook` embeds the `process_payment_webhook` PL/pgSQL
  function (the State Transition Engine), taking the later
  `CREATE OR REPLACE` version, which is the one in force.
* `manuallyProcessPayment` embeds `src/backend/services/payment/override.ts`.
* `reconcileStep` embeds the per-transaction body of
  `runPaymentReconciliation` in `src/backend/jobs/payment-reconciliation.ts`.
* `handleNowpaymentsWebhook` embeds the webhook route of
  `registerWebhookRoutes` (NOWPayments webhook handler).
* `withRetry` embeds the retry loop of
  `src/shared/integrations/telegram.ts`.
* `runExpirationCheck` embeds `src/backend/jobs/expiration-check.ts`.

Timestamps are integers (epoch milliseconds), monetary amounts are exact
rationals (SQL `numeric`), statuses are the literal strings the code stores.
-/

namespace Subscribehub

/-- One day in epoch milliseconds; a SQL interval of `d days` and the
JavaScript `setDate(getDate() + d)` step are both modelled as `d * dayMs`. -/
def dayMs : Int := 86400000

/-- Row of `payment_transactions`. -/
structure Transaction where
  id : Nat
  invoiceId : String
  paymentStatus : String
  amount : Rat
  paymentType : String
  subscriberId : Option Nat
  clientId : Option Nat
  planId : Option Nat
  confirmedAt : Option Int
  updatedAt : Int
deriving Repr, DecidableEq

/-- Row of `subscribers` (the subscription facet used by the core). -/
structure Subscriber where
  id : Nat
  telegramUserId : Nat
  botId : Option Nat
  subscriptionStatus : String
  subscriptionStartDate : Option Int
  subscriptionEndDate : Option Int
  subscriptionPlanId : Option Nat
deriving Repr, DecidableEq

/-- Row of `subscription_plans` (the fields the core reads). -/
structure Plan where
  id : Nat
  durationDays : Int
  botId : Option Nat
deriving Repr, DecidableEq

/-- Row of `clients` (the platform-subscription facet). -/
structure ClientRow where
  id : Nat
  status : String
  platformSubscriptionStart : Option Int
  platformSubscriptionEnd : Option Int
  platformSubscriptionPlanId : Option Nat
deriving Repr, DecidableEq

/-- Row of `access_control_logs`. -/
structure AccessLog where
  subscriberId : Option Nat
  botId : Option Nat
  action : String
  performedBy : String
  performerId : Option String
  reason : String
deriving Repr, DecidableEq

/-- The persistent state the settlement core reads and writes. -/
structure DB where
  transactions : List Transaction
  subscribers : List Subscriber
  plans : List Plan
  clients : List ClientRow
  accessLogs : List AccessLog
deriving Repr, DecidableEq

/-- `SELECT * FROM payment_transactions WHERE nowpayments_invoice_id = inv`. -/
def findTx (db : DB) (inv : String) : Option Transaction :=
  db.transactions.find? (fun t => t.invoiceId == inv)

/-- `SELECT * FROM payment_transactions WHERE id = i`. -/
def findTxById (db : DB) (i : Nat) : Option Transaction :=
  db.transactions.find? (fun t => t.id == i)

/-- `UPDATE payment_transactions SET ... WHERE id = txId`. -/
def updateTxRow (db : DB) (txId : Nat) (f : Transaction → Transaction) : DB :=
  { db with transactions := db.transactions.map (fun t => if t.id = txId then f t else t) }

/-- `SELECT * FROM subscribers WHERE id = sid` (no row when `sid` is NULL). -/
def findSubscriber (db : DB) (sid : Option Nat) : Option Subscriber :=
  sid.bind (fun i => db.subscribers.find? (fun s => s.id == i))

/-- `UPDATE subscribers SET ... WHERE id = sid` (no-op when `sid` is NULL). -/
def updateSubscriberRow (db : DB) (sid : Option Nat) (f : Subscriber → Subscriber) : DB :=
  match sid with
  | none => db
  | some i => { db with subscribers := db.subscribers.map (fun s => if s.id = i then f s else s) }

/-- `SELECT ... FROM subscription_plans WHERE id = pid`. -/
def findPlan (db : DB) (pid : Option Nat) : Option Plan :=
  pid.bind (fun i => db.plans.find? (fun p => p.id == i))

/-- `SELECT * FROM clients WHERE id = cid`. -/
def findClient (db : DB) (cid : Option Nat) : Option ClientRow :=
  cid.bind (fun i => db.clients.find? (fun c => c.id == i))

/-- `UPDATE clients SET ... WHERE id = cid` (no-op when `cid` is NULL). -/
def updateClientRow (db : DB) (cid : Option Nat) (f : ClientRow → ClientRow) : DB :=
  match cid with
  | none => db
  | some i => { db with clients := db.clients.map (fun c => if c.id = i then f c else c) }

/-- NULL-propagating `t + (d || ' days')::interval`: a NULL duration makes the
whole expression NULL. -/
def addDaysOpt (t : Int) (d : Option Int) : Option Int :=
  d.map (fun k => t + k * dayMs)

/-- The settled-class test of the engine, from
`IF p_payment_status = 'finished' OR p_payment_status = 'confirmed'`. -/
def isSettledStatus (s : String) : Bool :=
  s == "finished" || s == "confirmed"

/-- The status CASE of the non-settled branch of `process_payment_webhook`. -/
def mapOtherStatus (s : String) : String :=
  if s = "waiting" then "PENDING"
  else if s = "confirming" then "CONFIRMING"
  else if s = "expired" then "EXPIRED"
  else if s = "failed" then "FAILED"
  else "PENDING"

/-- Result JSON of `process_payment_webhook`, one constructor per
`json_build_object` return site. -/
inductive RpcResult where
  | errNotFound
  | successAlreadyConfirmed
  | errUnderpaid (expected received : Rat)
  | activatedSubscriber (endDate : Option Int)
  | activatedClient (endDate : Int)
  | updated (newStatus : String)
  | unknownOutcome
deriving Repr, DecidableEq

/-- The State Transition Engine: the `process_payment_webhook` PL/pgSQL
function (later `CREATE OR REPLACE` version). Returns the result JSON and
the database after the single atomic unit. -/
def processPaymentWebhook (db : DB) (now : Int) (pInvoiceId pPaymentStatus : String)
    (pActuallyPaid : Rat) ( _pPayCurrency : String) : RpcResult × DB :=
  match findTx db pInvoiceId with
  | none => (.errNotFound, db)
  | some tx =>
    if tx.paymentStatus = "CONFIRMED" then (.successAlreadyConfirmed, db)
    else if isSettledStatus pPaymentStatus then
      if pActuallyPaid < tx.amount then
        (.errUnderpaid tx.amount pActuallyPaid,
         updateTxRow db tx.id (fun t => { t with paymentStatus := "FAILED", updatedAt := now }))
      else
        let db1 := updateTxRow db tx.id (fun t =>
          { t with paymentStatus := "CONFIRMED", confirmedAt := some now, updatedAt := now })
        if tx.paymentType = "SUBSCRIBER_SUBSCRIPTION" then
          let plan := findPlan db1 tx.planId
          let planDuration : Option Int := plan.map (fun p => p.durationDays)
          let planBotId : Option Nat := plan.bind (fun p => p.botId)
          let caseEnd : Option Int :=
            match findSubscriber db1 tx.subscriberId with
            | none => none
            | some s =>
              match s.subscriptionEndDate with
              | some e =>
                if s.subscriptionStatus = "ACTIVE" ∧ e > now then addDaysOpt e planDuration
                else addDaysOpt now planDuration
              | none => addDaysOpt now planDuration
          let newEnd : Option Int :=
            match caseEnd with
            | none => addDaysOpt now planDuration
            | some e => some e
          let db2 := updateSubscriberRow db1 tx.subscriberId (fun s =>
            { s with subscriptionStatus := "ACTIVE",
                     subscriptionStartDate := some (s.subscriptionStartDate.getD now),
                     subscriptionEndDate := newEnd,
                     subscriptionPlanId := tx.planId })
          let db3 := { db2 with accessLogs := db2.accessLogs ++
            [{ subscriberId := tx.subscriberId, botId := planBotId, action := "GRANT",
               performedBy := "SYSTEM", performerId := none, reason := "Payment Confirmed" }] }
          (.activatedSubscriber newEnd, db3)
        else if tx.paymentType = "PLATFORM_SUBSCRIPTION" then
          let planDuration : Int := (((findPlan db1 tx.planId).map (fun p => p.durationDays)).getD 30)
          let caseEnd : Option Int :=
            match findClient db1 tx.clientId with
            | none => none
            | some c =>
              match c.platformSubscriptionEnd with
              | some e =>
                if c.status = "ACTIVE" ∧ e > now then some (e + planDuration * dayMs)
                else some (now + planDuration * dayMs)
              | none => some (now + planDuration * dayMs)
          let newEnd : Int := caseEnd.getD (now + planDuration * dayMs)
          let db2 := updateClientRow db1 tx.clientId (fun c =>
            { c with status := "ACTIVE",
                     platformSubscriptionPlanId := tx.planId,
                     platformSubscriptionStart := some (c.platformSubscriptionStart.getD now),
                     platformSubscriptionEnd := some newEnd })
          (.activatedClient newEnd, db2)
        else (.unknownOutcome, db1)
    else
      (.updated pPaymentStatus,
       updateTxRow db tx.id (fun t =>
         { t with paymentStatus := mapOtherStatus pPaymentStatus, updatedAt := now }))

/-- Result object of `manuallyProcessPayment`
(`Promise<{ success: boolean; error?: string }>`). -/
structure OverrideResult where
  success : Bool
  error : Option String
deriving Repr, DecidableEq

/-- The admin manual-override service `manuallyProcessPayment` of
`src/backend/services/payment/override.ts`: looks the transaction up by id,
rejects already-confirmed, non-subscriber, orphaned or plan-less rows, then
directly writes the transaction CONFIRMED, resets the subscription window to
`now + plan.duration_days`, and appends an ADMIN GRANT log entry. The
channel-grant side effect after the writes is an external call and is not part
of the persisted state modelled here. -/
def manuallyProcessPayment (db : DB) (now : Int) (transactionId : Nat)
    (adminId : String) : OverrideResult × DB :=
  match findTxById db transactionId with
  | none => (⟨false, some "Transaction not found"⟩, db)
  | some tx =>
    if tx.paymentStatus = "CONFIRMED" then
      (⟨false, some "Payment already confirmed"⟩, db)
    else if tx.paymentType ≠ "SUBSCRIBER_SUBSCRIPTION" then
      (⟨false, some "Can only manually process subscriber payments"⟩, db)
    else
      match findSubscriber db tx.subscriberId with
      | none => (⟨false, some "Subscriber not found"⟩, db)
      | some subscriber =>
        match findPlan db tx.planId with
        | none => (⟨false, some "Subscription plan not found"⟩, db)
        | some plan =>
          let endDate : Int := now + plan.durationDays * dayMs
          let db1 := updateTxRow db transactionId (fun t =>
            { t with paymentStatus := "CONFIRMED", confirmedAt := some now })
          let db2 := updateSubscriberRow db1 (some subscriber.id) (fun s =>
            { s with subscriptionStatus := "ACTIVE",
                     subscriptionStartDate := some now,
                     subscriptionEndDate := some endDate,
                     subscriptionPlanId := tx.planId })
          let db3 := { db2 with accessLogs := db2.accessLogs ++
            [{ subscriberId := some subscriber.id, botId := subscriber.botId,
               action := "GRANT", performedBy := "ADMIN",
               performerId := some adminId, reason := "Manual payment override" }] }
          (⟨true, none⟩, db3)

/-- ASCII lowercase of one character, as `String.prototype.toLowerCase`
behaves on the ASCII processor statuses. -/
def asciiLowerChar (c : Char) : Char :=
  if 65 ≤ c.toNat ∧ c.toNat ≤ 90 then Char.ofNat (c.toNat + 32) else c

/-- `toLowerCase()` on an ASCII status string. -/
def asciiLower (s : String) : String :=
  String.mk (s.data.map asciiLowerChar)

/-- The processor statuses the reconciliation sweep treats as settled, from
`['finished', 'confirmed', 'partially_paid'].includes(...)`. -/
def reconcileHealSet : List String := ["finished", "confirmed", "partially_paid"]

/-- Healed/error tally kept by `runPaymentReconciliation`. -/
structure ReconcileTally where
  reconciled : Nat
  errors : Nat
deriving Repr, DecidableEq

/-- Per-transaction body of `runPaymentReconciliation`
(`src/backend/jobs/payment-reconciliation.ts`): when the processor-fetched
status is in the heal set, it auto-heals by calling
`manuallyProcessPayment(tx.id, 'SYSTEM_RECONCILIATION')` — the fetched
`actually_paid` amount is read from the API response but never passed on. -/
def reconcileStep (db : DB) (now : Int) (tx : Transaction)
    (fetchedStatus : String) ( _fetchedActuallyPaid : Rat) : ReconcileTally × DB :=
  if asciiLower fetchedStatus ∈ reconcileHealSet then
    let (r, db1) := manuallyProcessPayment db now tx.id "SYSTEM_RECONCILIATION"
    if r.success then (⟨1, 0⟩, db1) else (⟨0, 1⟩, db1)
  else (⟨0, 0⟩, db)

/-- HTTP replies of the NOWPayments webhook route, one constructor per
`reply.status(...).send(...)` site (the RPC-error 500 is subsumed by the pure
RPC model, which always returns a result). -/
inductive HttpResponse where
  | configError500
  | invalidSignature403
  | webhookExpired400
  | alreadyProcessed200
  | processed200 (r : RpcResult)
deriving Repr, DecidableEq

/-- `WEBHOOK_MAX_AGE_MS = 5 * 60 * 1000`. -/
def webhookMaxAgeMs : Int := 5 * 60 * 1000

/-- Outcome of one webhook request: the HTTP reply, the database afterwards,
and the ordered trace of ledger accesses the handler performed. -/
structure HandlerOutcome where
  response : HttpResponse
  db : DB
  ledgerOps : List String
deriving Repr, DecidableEq

/-- The part of the webhook route after signature and replay checks: the
idempotency pre-read of `payment_transactions`, then the atomic RPC. -/
def handlerProcess (db : DB) (now : Int) (invoiceId paymentStatus : String)
    (actuallyPaid : Rat) (payCurrency : String) : HandlerOutcome :=
  let pre := findTx db invoiceId
  if pre.map (fun t => t.paymentStatus) = some "CONFIRMED" then
    ⟨.alreadyProcessed200, db, ["read"]⟩
  else
    let (r, db1) := processPaymentWebhook db now invoiceId paymentStatus actuallyPaid payCurrency
    ⟨.processed200 r, db1, ["read", "rpc"]⟩

/-- The NOWPayments webhook route of `registerWebhookRoutes`: configuration
check, signature validation, replay guard on the optional `updated_at`
timestamp, then `handlerProcess`. `signatureValid` abstracts the boolean
returned by `validateWebhookSignature` (its input is studied separately by the
raw-body model below). -/
def handleNowpaymentsWebhook (db : DB) (now : Int)
    (secretConfigured signatureValid : Bool)
    (invoiceId paymentStatus : String) (actuallyPaid : Rat) (payCurrency : String)
    (updatedAt : Option Int) : HandlerOutcome :=
  if ¬ secretConfigured then ⟨.configError500, db, []⟩
  else if ¬ signatureValid then ⟨.invalidSignature403, db, []⟩
  else
    match updatedAt with
    | some t =>
      if now - t > webhookMaxAgeMs then ⟨.webhookExpired400, db, []⟩
      else handlerProcess db now invoiceId paymentStatus actuallyPaid payCurrency
    | none => handlerProcess db now invoiceId paymentStatus actuallyPaid payCurrency

/-- Outcome of one attempt of a Telegram API operation, as `withRetry`
inspects it: success, or an error carrying the optional
`error_code` and optional `parameters.retry_after`. -/
inductive TgOutcome where
  | ok
  | err (errorCode : Option Nat) (retryAfter : Option Nat)
deriving Repr, DecidableEq

/-- What a `withRetry` run produced: the value returned, or the error thrown. -/
inductive RetryResult where
  | success
  | thrown (errorCode : Option Nat) (retryAfter : Option Nat)
deriving Repr, DecidableEq

/-- A `withRetry` run together with the ordered list of sleep durations (ms)
it performed. -/
structure RetryRun where
  result : RetryResult
  sleeps : List Nat
deriving Repr, DecidableEq

/-- `errorCode >= 400 && errorCode < 500 && errorCode !== 429`; a missing
error code makes the JavaScript comparison false. -/
def isClientError : Option Nat → Bool
  | some c => decide (400 ≤ c ∧ c < 500 ∧ c ≠ 429)
  | none => false

/-- `error?.parameters?.retry_after || 1`: absent and zero both become 1. -/
def jsRetryAfter : Option Nat → Nat
  | some r => if r = 0 then 1 else r
  | none => 1

/-- Loop body of `withRetry` in `src/shared/integrations/telegram.ts`.
`remaining` is the number of loop iterations left (`retries - i`); note that
the rate-limit branch ends in `continue`, which still runs the `i++` update of
the `for` loop, so it advances the attempt counter like any other retry. -/
def withRetryAux (operation : Nat → TgOutcome) (delayMs : Nat) :
    Nat → Nat → List Nat → Option (Option Nat × Option Nat) → RetryRun
  | 0, _, sleeps, lastErr =>
    match lastErr with
    | some (c, ra) => ⟨.thrown c ra, sleeps⟩
    | none => ⟨.thrown none none, sleeps⟩
  | remaining + 1, i, sleeps, _ =>
    match operation i with
    | .ok => ⟨.success, sleeps⟩
    | .err code ra =>
      if isClientError code then ⟨.thrown code ra, sleeps⟩
      else if code = some 429 then
        withRetryAux operation delayMs remaining (i + 1)
          (sleeps ++ [jsRetryAfter ra * 1000 + 100]) (some (code, ra))
      else
        withRetryAux operation delayMs remaining (i + 1)
          (sleeps ++ [delayMs * 2 ^ i]) (some (code, ra))

/-- `withRetry(operation, retries, delayMs)`: the shared chat-provider retry
policy; the source defaults are `retries = 3` and `delayMs = 1000`.
`operation n` is the outcome of attempt `n`. -/
def withRetry (operation : Nat → TgOutcome) (retries : Nat)
    (delayMs : Nat) : RetryRun :=
  withRetryAux operation delayMs retries 0 [] none

/-- The selling bot joined onto an expiring subscriber row, as
`runExpirationCheck` reads it. -/
structure BotInfo where
  id : Nat
  linkedChannelId : Option Nat
  botToken : String
deriving Repr, DecidableEq

/-- A subscriber row as the expiration sweep sees it. -/
structure ExpiringSub where
  id : Nat
  telegramUserId : Nat
  subscriptionStatus : String
  subscriptionEndDate : Option Int
  bot : Option BotInfo
deriving Repr, DecidableEq

/-- Modelled from the spec: `getExpiredSubscriptions` lives in
`src/backend/services/subscription`, which is absent from the provided source;
§4.6 of the spec says the sweep selects subscriptions with status ACTIVE and
periodEnd < now. -/
def getExpiredSubscriptions (subs : List ExpiringSub) (now : Int) : List ExpiringSub :=
  subs.filter (fun s => s.subscriptionStatus == "ACTIVE" &&
    match s.subscriptionEndDate with
    | some e => decide (e < now)
    | none => false)

/-- Modelled from the spec: `expireSubscription` lives in
`src/backend/services/subscription`, which is absent from the provided source;
§4.6 of the spec says the sweep sets the selected subscription to EXPIRED. -/
def expireSubscription (s : ExpiringSub) : ExpiringSub :=
  { s with subscriptionStatus := "EXPIRED" }

/-- Whether the sweep reaches the revoke call for a row:
`sub.bot && sub.bot.linked_channel_id`. -/
def hasLinkedChannel (s : ExpiringSub) : Bool :=
  match s.bot with
  | some b => b.linkedChannelId.isSome
  | none => false

/-- What one sweep run did: the final state of each selected row in order, the
revoke invocations as (subscriberId, reason) pairs, and the ids whose
processing threw and was only logged. -/
structure SweepResult where
  processed : List ExpiringSub
  revokes : List (Nat × String)
  errorsLogged : List Nat
deriving Repr, DecidableEq

/-- Per-item loop of `runExpirationCheck` with its try/catch: `throwsOn`
says whether processing a given subscriber id throws; a throw is logged and
the loop moves to the next row. -/
def expirationLoop (throwsOn : Nat → Bool) : List ExpiringSub → SweepResult
  | [] => ⟨[], [], []⟩
  | s :: rest =>
    let r := expirationLoop throwsOn rest
    if throwsOn s.id then
      ⟨s :: r.processed, r.revokes, s.id :: r.errorsLogged⟩
    else
      let s1 := expireSubscription s
      let rv : List (Nat × String) :=
        if hasLinkedChannel s then [(s.id, "Subscription expired")] else []
      ⟨s1 :: r.processed, rv ++ r.revokes, r.errorsLogged⟩

/-- `runExpirationCheck` of `src/backend/jobs/expiration-check.ts`: select the
expired subscriptions, then process each in turn under the per-item
try/catch. -/
def runExpirationCheck (subs : List ExpiringSub) (now : Int)
    (throwsOn : Nat → Bool) : SweepResult :=
  expirationLoop throwsOn (getExpiredSubscriptions subs now)

/-- Opening brace character. -/
def lbrace : Char := Char.ofNat 123

/-- Closing brace character. -/
def rbrace : Char := Char.ofNat 125

/-- JSON insignificant whitespace (space, tab, line feed, carriage return). -/
def isJsonWs (c : Char) : Bool :=
  c == ' ' || c == '\t' || c == '\n' || c == '\r'

/-- Drop leading JSON whitespace. -/
def skipWs : List Char → List Char
  | [] => []
  | c :: cs => if isJsonWs c then skipWs cs else c :: cs

/-- Longest leading digit run and the remainder. -/
def takeDigits : List Char → List Char × List Char
  | [] => ([], [])
  | c :: cs =>
    if c.isDigit then
      let p := takeDigits cs
      (c :: p.1, p.2)
    else ([], c :: cs)

/-- Decimal value of a digit run. -/
def digitsToNat (ds : List Char) : Nat :=
  ds.foldl (fun acc c => acc * 10 + (c.toNat - 48)) 0

/-- Characters of a quoted key up to the closing quote (no escapes in the
modelled fragment), and the remainder after it. -/
def takeKeyChars : List Char → Option (List Char × List Char)
  | [] => none
  | c :: cs =>
    if c == '"' then some ([], cs)
    else
      match takeKeyChars cs with
      | some (s, r) => some (c :: s, r)
      | none => none

/-- One `"key": number` member, with surrounding whitespace. -/
def parseMember (input : List Char) : Option ((String × Nat) × List Char) :=
  match skipWs input with
  | [] => none
  | c :: cs =>
    if c == '"' then
      match takeKeyChars cs with
      | none => none
      | some (k, r1) =>
        match skipWs r1 with
        | [] => none
        | c2 :: cs2 =>
          if c2 == ':' then
            let p := takeDigits (skipWs cs2)
            match p.1 with
            | [] => none
            | _ => some ((String.mk k, digitsToNat p.1), p.2)
          else none
    else none

/-- Comma-separated members up to the closing brace. -/
def parseMembers : Nat → List Char → Option (List (String × Nat) × List Char)
  | 0, _ => none
  | fuel + 1, input =>
    match parseMember input with
    | none => none
    | some (kv, rest) =>
      match skipWs rest with
      | [] => none
      | c :: cs =>
        if c == ',' then
          match parseMembers fuel cs with
          | some (kvs, r) => some (kv :: kvs, r)
          | none => none
        else if c == rbrace then some ([kv], cs)
        else none

/-- Model of `JSON.parse` on the fragment the study needs: one flat object
whose values are nonnegative integers, with arbitrary insignificant
whitespace. This is what Fastify applies to the raw request bytes to produce
`request.body`. Returns `none` outside the modelled fragment. -/
def flatParse (raw : String) : Option (List (String × Nat)) :=
  match skipWs raw.data with
  | [] => none
  | c :: cs =>
    if c == lbrace then
      match skipWs cs with
      | [] => none
      | c2 :: cs2 =>
        if c2 == rbrace then
          if (skipWs cs2).isEmpty then some [] else none
        else
          match parseMembers (raw.length + 1) (c2 :: cs2) with
          | some (kvs, r) => if (skipWs r).isEmpty then some kvs else none
          | none => none
    else none

/-- Model of `JSON.stringify` on the same fragment: no whitespace, keys in
object order. -/
def flatStringify (obj : List (String × Nat)) : String :=
  lbrace.toString ++
    String.intercalate "," (obj.map (fun kv => "\"" ++ kv.1 ++ "\":" ++ toString kv.2)) ++
    rbrace.toString

/-- The string the webhook route feeds to the HMAC check:
`const rawBody = JSON.stringify(request.body)` — the re-serialization of the
parsed body, not the raw request bytes. -/
def handlerHmacInput (raw : String) : Option String :=
  (flatParse raw).map flatStringify

/-- The signature decision of the webhook route for a request with raw body
`raw`, as a function of an arbitrary keyed MAC `hmac`: the route compares
`hmac secret (JSON.stringify (JSON.parse raw))` against the claimed
signature. -/
def handlerVerifiesSignature (hmac : String → String → String)
    (secret raw sig : String) : Bool :=
  match handlerHmacInput raw with
  | some input => hmac secret input == sig
  | none => false

/-- Number of positions at which two equal-length strings differ. -/
def diffCount (a b : String) : Nat :=
  (List.zipWith (fun x y => if x = y then (0 : Nat) else 1) a.data b.data).sum

/-- Concrete fixture plan: 30 days, owned by bot 7. -/
def planW : Plan := ⟨1, 30, some 7⟩

/-- Concrete fixture subscriber: ACTIVE with period end 40 days after epoch. -/
def subW : Subscriber := ⟨1, 555, some 7, "ACTIVE", some 0, some (40 * dayMs), some 1⟩

/-- Concrete fixture transaction: PENDING subscriber payment of 100 for
invoice inv1 and plan 1. -/
def txW : Transaction :=
  ⟨1, "inv1", "PENDING", 100, "SUBSCRIBER_SUBSCRIPTION", some 1, none, some 1, none, 0⟩

/-- Concrete fixture database holding the three rows above. -/
def dbW : DB := ⟨[txW], [subW], [planW], [], []⟩

/-- Fixture transaction already CONFIRMED, for the already-confirmed paths. -/
def txC : Transaction :=
  ⟨1, "inv1", "CONFIRMED", 100, "SUBSCRIBER_SUBSCRIPTION", some 1, none, some 1, some 0, 0⟩

/-- Fixture database whose only transaction is already CONFIRMED. -/
def dbC : DB := ⟨[txC], [subW], [planW], [], []⟩

/-- Fixture expiring subscriber row with a linked channel. -/
def expSubW : ExpiringSub := ⟨1, 555, "ACTIVE", some 0, some ⟨7, some 77, "tok"⟩⟩

/-- Fixture raw webhook body with a trailing space. -/
def rawW1 : String := "\x7b\"a\":1\x7d "

/-- The same raw webhook body with its final byte mutated from space to tab. -/
def rawW2 : String := "\x7b\"a\":1\x7d\t"

theorem updateSubscriberRow_transactions (db : DB) (sid : Option Nat)
    (f : Subscriber → Subscriber) :
    (updateSubscriberRow db sid f).transactions = db.transactions := by
  cases sid <;> rfl

theorem updateClientRow_transactions (db : DB) (cid : Option Nat)
    (f : ClientRow → ClientRow) :
    (updateClientRow db cid f).transactions = db.transactions := by
  cases cid <;> rfl

theorem find?_map_pres {α : Type _} (p : α → Bool) (f : α → α)
    (hp : ∀ x, p (f x) = p x) (l : List α) :
    (l.map f).find? p = (l.find? p).map f := by
  induction l with
  | nil => rfl
  | cons a l ih =>
    simp only [List.map_cons, List.find?]
    rw [hp a]
    cases h : p a
    · simpa using ih
    · rfl

theorem processPaymentWebhook_settled_transactions (db : DB) (now : Int)
    (inv st cur : String) (paid : Rat) (tx : Transaction)
    (hfind : findTx db inv = some tx)
    (hnc : tx.paymentStatus ≠ "CONFIRMED")
    (hst : isSettledStatus st = true)
    (hpaid : ¬ paid < tx.amount) :
    (processPaymentWebhook db now inv st paid cur).2.transactions =
      db.transactions.map (fun t => if t.id = tx.id then
        { t with paymentStatus := "CONFIRMED", confirmedAt := some now, updatedAt := now }
      else t) := by
  unfold processPaymentWebhook
  simp only [hfind, hst, if_true, if_neg hnc, if_neg hpaid]
  split
  · simp [updateSubscriberRow_transactions, updateTxRow]
  · split
    · simp [updateClientRow_transactions, updateTxRow]
    · simp [updateTxRow]

theorem findTx_after_settled (db : DB) (now : Int)
    (inv st cur : String) (paid : Rat) (tx : Transaction)
    (hfind : findTx db inv = some tx)
    (hnc : tx.paymentStatus ≠ "CONFIRMED")
    (hst : isSettledStatus st = true)
    (hpaid : ¬ paid < tx.amount) :
    findTx (processPaymentWebhook db now inv st paid cur).2 inv =
      some { tx with paymentStatus := "CONFIRMED", confirmedAt := some now, updatedAt := now } := by
  unfold findTx
  rw [processPaymentWebhook_settled_transactions db now inv st cur paid tx hfind hnc hst hpaid]
  have hp : ∀ x : Transaction,
      (fun t : Transaction => t.invoiceId == inv)
        ((fun t : Transaction => if t.id = tx.id then
          { t with paymentStatus := "CONFIRMED", confirmedAt := some now, updatedAt := now }
        else t) x)
      = (fun t : Transaction => t.invoiceId == inv) x := by
    intro x; dsimp; split <;> rfl
  rw [find?_map_pres _ _ hp db.transactions]
  rw [show db.transactions.find? (fun t => t.invoiceId == inv) = some tx from hfind]
  simp

/-- C3: two engine invocations with the same external invoice id and a settled
status confirm the transaction exactly once. After a first settled,
sufficiently paid invocation the transaction is CONFIRMED, any further engine
invocation for that invoice returns the idempotent no-op success with the
database unchanged, and the webhook route itself answers a duplicate
notification with already-processed and no mutation — so the subscription is
extended exactly once. -/
theorem engine_apply_idempotent (db : DB) (now now2 : Int)
    (inv st st2 cur cur2 : String) (paid paid2 : Rat) (tx : Transaction)
    (hfind : findTx db inv = some tx)
    (hnc : tx.paymentStatus ≠ "CONFIRMED")
    (hst : isSettledStatus st = true)
    (hpaid : ¬ paid < tx.amount) :
    ((findTx (processPaymentWebhook db now inv st paid cur).2 inv).map
        (fun t => t.paymentStatus) = some "CONFIRMED") ∧
    processPaymentWebhook (processPaymentWebhook db now inv st paid cur).2 now2 inv st2 paid2 cur2
        = (.successAlreadyConfirmed, (processPaymentWebhook db now inv st paid cur).2) ∧
    handleNowpaymentsWebhook (processPaymentWebhook db now inv st paid cur).2 now2 true true
        inv st2 paid2 cur2 none
        = ⟨.alreadyProcessed200, (processPaymentWebhook db now inv st paid cur).2, ["read"]⟩ := by
  have hafter := findTx_after_settled db now inv st cur paid tx hfind hnc hst hpaid
  set db1 := (processPaymentWebhook db now inv st paid cur).2 with hdb1
  refine ⟨by rw [hafter]; rfl, ?_, ?_⟩
  · unfold processPaymentWebhook
    simp [hafter]
  · unfold handleNowpaymentsWebhook handlerProcess
    simp [hafter]

/-- Witness for C3 at the concrete fixture database. -/
theorem engine_apply_idempotent_witness :
    (findTx (processPaymentWebhook dbW 0 "inv1" "finished" 100 "usd").2 "inv1").map
        (fun t => t.paymentStatus) = some "CONFIRMED" :=
  (engine_apply_idempotent dbW 0 5 "inv1" "finished" "finished" "usd" "usd" 100 100 txW
    (by decide) (by decide) (by decide) (by decide)).1

/-- C5 (amended): the settled class of the engine is exactly the statuses
finished and confirmed; every other reported status — including sending and
partially_paid — is mapped waiting→PENDING, confirming→CONFIRMING,
expired→EXPIRED, failed→FAILED and anything else→PENDING, persisted on the
transaction row only, with no subscription mutation, and the engine returns
status=updated. -/
theorem engine_nonsettled_maps_status (db : DB) (now : Int) (inv st cur : String)
    (paid : Rat) (tx : Transaction)
    (hfind : findTx db inv = some tx)
    (hnc : tx.paymentStatus ≠ "CONFIRMED")
    (hst : isSettledStatus st = false) :
    processPaymentWebhook db now inv st paid cur =
      (.updated st, updateTxRow db tx.id (fun t =>
        { t with paymentStatus := mapOtherStatus st, updatedAt := now })) ∧
    (processPaymentWebhook db now inv st paid cur).2.subscribers = db.subscribers ∧
    (processPaymentWebhook db now inv st paid cur).2.clients = db.clients ∧
    (processPaymentWebhook db now inv st paid cur).2.accessLogs = db.accessLogs ∧
    (∀ s, isSettledStatus s = true ↔ (s = "finished" ∨ s = "confirmed")) ∧
    mapOtherStatus "waiting" = "PENDING" ∧
    mapOtherStatus "confirming" = "CONFIRMING" ∧
    mapOtherStatus "expired" = "EXPIRED" ∧
    mapOtherStatus "failed" = "FAILED" ∧
    mapOtherStatus "sending" = "PENDING" ∧
    mapOtherStatus "partially_paid" = "PENDING" ∧
    mapOtherStatus "unknown" = "PENDING" := by
  have hmain : processPaymentWebhook db now inv st paid cur =
      (.updated st, updateTxRow db tx.id (fun t =>
        { t with paymentStatus := mapOtherStatus st, updatedAt := now })) := by
    unfold processPaymentWebhook
    simp [hfind, hst, hnc]
  refine ⟨hmain, by rw [hmain]; rfl, by rw [hmain]; rfl, by rw [hmain]; rfl,
    ?_, rfl, rfl, rfl, rfl, rfl, rfl, rfl⟩
  intro s
  simp [isSettledStatus, Bool.or_eq_true, beq_iff_eq]

/-- Witness for C5 at the concrete fixture database with reported status
waiting. -/
theorem engine_nonsettled_maps_status_witness :
    processPaymentWebhook dbW 0 "inv1" "waiting" 100 "usd" =
      (.updated "waiting", updateTxRow dbW txW.id (fun t =>
        { t with paymentStatus := mapOtherStatus "waiting", updatedAt := 0 })) :=
  (engine_nonsettled_maps_status dbW 0 "inv1" "waiting" "usd" 100 txW
    (by decide) (by decide) (by decide)).1

/-- Counterexample for C5: a partially_paid report with an insufficient amount
is not routed into the settled class: the engine leaves the transaction
PENDING (not FAILED), returns status=updated, and never reaches the
underpayment check. -/
theorem engine_partially_paid_not_settled :
    isSettledStatus "partially_paid" = false ∧
    (99 : Rat) < 100 ∧
    (processPaymentWebhook dbW 0 "inv1" "partially_paid" 99 "usd").1
      = .updated "partially_paid" ∧
    ((processPaymentWebhook dbW 0 "inv1" "partially_paid" 99 "usd").2.transactions.map
      (fun t => t.paymentStatus)) = ["PENDING"] ∧
    ("PENDING" : String) ≠ "FAILED" ∧
    (processPaymentWebhook dbW 0 "inv1" "partially_paid" 99 "usd").2.subscribers
      = dbW.subscribers := by
  decide

/-- C7: a validly signed webhook whose updated_at timestamp is more than five
minutes old is rejected with HTTP 400 before any ledger access and with the
database untouched; a timestamp inside the window and an absent timestamp
both fall through to the processing stage unchanged. -/
theorem webhook_replay_guard (db : DB) (now t1 t2 : Int) (inv st cur : String)
    (paid : Rat)
    (hstale : now - t1 > webhookMaxAgeMs)
    (hfresh : now - t2 ≤ webhookMaxAgeMs) :
    handleNowpaymentsWebhook db now true true inv st paid cur (some t1)
      = ⟨.webhookExpired400, db, []⟩ ∧
    handleNowpaymentsWebhook db now true true inv st paid cur (some t2)
      = handlerProcess db now inv st paid cur ∧
    handleNowpaymentsWebhook db now true true inv st paid cur none
      = handlerProcess db now inv st paid cur := by
  refine ⟨?_, ?_, rfl⟩
  · unfold handleNowpaymentsWebhook
    simp [hstale]
  · unfold handleNowpaymentsWebhook
    simp [not_lt.mpr hfresh]

/-- Witness for C7: six minutes is stale, four minutes is fresh. -/
theorem webhook_replay_guard_witness :
    handleNowpaymentsWebhook dbW 360000 true true "inv1" "waiting" 0 "usd" (some 0)
      = ⟨.webhookExpired400, dbW, []⟩ :=
  (webhook_replay_guard dbW 360000 0 120000 "inv1" "waiting" "usd" 0
    (by decide) (by decide)).1

/-- C1 (code bug witness): on the reconciliation auto-heal and admin override
paths an underpaid transaction is still CONFIRMED and the subscription is
mutated — the heal of a processor-reported partially_paid payment of 99
against an amount due of 100 confirms the transaction and rewrites the
subscriber — while the webhook engine path does mark the same underpayment
FAILED without touching the subscription. -/
theorem underpaid_heal_confirms :
    (99 : Rat) < txW.amount ∧
    (reconcileStep dbW 0 txW "partially_paid" 99).1 = ⟨1, 0⟩ ∧
    ((findTxById (reconcileStep dbW 0 txW "partially_paid" 99).2 1).map
      (fun t => t.paymentStatus)) = some "CONFIRMED" ∧
    (reconcileStep dbW 0 txW "partially_paid" 99).2.subscribers ≠ dbW.subscribers ∧
    (manuallyProcessPayment dbW 0 1 "admin1").1 = ⟨true, none⟩ ∧
    ((findTxById (manuallyProcessPayment dbW 0 1 "admin1").2 1).map
      (fun t => t.paymentStatus)) = some "CONFIRMED" ∧
    (processPaymentWebhook dbW 0 "inv1" "finished" 99 "usd").1
      = .errUnderpaid 100 99 ∧
    ((findTx (processPaymentWebhook dbW 0 "inv1" "finished" 99 "usd").2 "inv1").map
      (fun t => t.paymentStatus)) = some "FAILED" := by
  decide

/-- C2 (code bug witness): the manual-override confirmation path sets the
subscription window to now + plan.durationDays unconditionally, so an ACTIVE
subscriber whose period end lies 40 days ahead is cut back to 30 days ahead —
periodEnd decreases — while the engine path computes
max(now, old periodEnd) + durationDays = 70 days as the claim states. -/
theorem override_resets_period_end :
    ((findSubscriber dbW (some 1)).bind (fun s => s.subscriptionEndDate))
      = some (40 * dayMs) ∧
    ((findSubscriber (manuallyProcessPayment dbW 0 1 "admin1").2 (some 1)).bind
      (fun s => s.subscriptionEndDate)) = some (30 * dayMs) ∧
    (30 * dayMs : Int) < 40 * dayMs ∧
    ((findSubscriber (processPaymentWebhook dbW 0 "inv1" "finished" 100 "usd").2 (some 1)).bind
      (fun s => s.subscriptionEndDate)) = some (70 * dayMs) := by
  decide

/-- C4 (code bug witness): the reconciliation heal is exactly the manual
override, not an engine invocation with the fetched status and amount — and
the override observably bypasses the engine contract: on the same database the
override ends the subscription 30 days out while the engine ends it 70 days
out, so the two final states differ. -/
theorem reconcile_bypasses_engine :
    (reconcileStep dbW 0 txW "finished" 100).2
      = (manuallyProcessPayment dbW 0 1 "SYSTEM_RECONCILIATION").2 ∧
    ((findSubscriber (manuallyProcessPayment dbW 0 1 "SYSTEM_RECONCILIATION").2 (some 1)).bind
      (fun s => s.subscriptionEndDate)) = some (30 * dayMs) ∧
    ((findSubscriber (processPaymentWebhook dbW 0 "inv1" "finished" 100 "usd").2 (some 1)).bind
      (fun s => s.subscriptionEndDate)) = some (70 * dayMs) ∧
    (manuallyProcessPayment dbW 0 1 "SYSTEM_RECONCILIATION").2
      ≠ (processPaymentWebhook dbW 0 "inv1" "finished" 100 "usd").2 := by
  decide

/-- C6 (code bug witness): the webhook route feeds the HMAC check the
re-serialization of the parsed body, not the raw request bytes, so two raw
bodies that differ in exactly one byte of whitespace produce the same HMAC
input and the same verification verdict under every keyed MAC — a single-byte
mutation of the raw body does not invalidate a previously valid signature,
and the HMAC input is not the raw bytes the processor signed. -/
theorem handler_hmac_reserialization :
    rawW1 ≠ rawW2 ∧
    rawW1.length = rawW2.length ∧
    diffCount rawW1 rawW2 = 1 ∧
    flatParse rawW1 = some [("a", 1)] ∧
    flatParse rawW2 = some [("a", 1)] ∧
    handlerHmacInput rawW1 = handlerHmacInput rawW2 ∧
    handlerHmacInput rawW1 ≠ some rawW1 ∧
    ∀ (hmac : String → String → String) (secret sig : String),
      handlerVerifiesSignature hmac secret rawW1 sig
        = handlerVerifiesSignature hmac secret rawW2 sig := by
  refine ⟨by decide, by decide, by decide, by decide, by decide, by decide, by decide, ?_⟩
  intro hmac secret sig
  unfold handlerVerifiesSignature
  rw [show handlerHmacInput rawW1 = handlerHmacInput rawW2 from by decide]

/-- Counterexample for C8: an operation that is rate-limited on every attempt
exhausts the fixed budget of 3 — each 429 advances the loop counter because
the continue statement still runs the for-loop update — and the error then
propagates, so a 429 retry does consume the attempt budget. -/
theorem retry_429_consumes_budget :
    withRetry (fun _ => .err (some 429) (some 2)) 3 1000
      = ⟨.thrown (some 429) (some 2), [2100, 2100, 2100]⟩ := by
  decide

/-- C8 (amended): a non-429 4xx error propagates immediately with no sleeps; a
429 sleeps retry_after seconds plus a 100 ms buffer and retries, but consumes
the attempt budget like any other retry; every other failure is retried with
exponential backoff delayMs * 2 ^ attempt; and after 3 attempts the last error
propagates to the caller. -/
theorem retry_policy_behavior (op1 op2 op3 : Nat → TgOutcome) (d : Nat)
    (c0 : Nat) (ra0 : Option Nat)
    (h1 : op1 0 = .err (some c0) ra0) (h1a : 400 ≤ c0) (h1b : c0 < 500) (h1c : c0 ≠ 429)
    (h2 : ∀ i, op2 i = .err (some 429) (some 2))
    (h3 : ∀ i, op3 i = .err (some 500) none) :
    withRetry op1 3 d = ⟨.thrown (some c0) ra0, []⟩ ∧
    withRetry op2 3 d = ⟨.thrown (some 429) (some 2), [2100, 2100, 2100]⟩ ∧
    withRetry op3 3 d = ⟨.thrown (some 500) none, [d * 2 ^ 0, d * 2 ^ 1, d * 2 ^ 2]⟩ := by
  have hce : isClientError (some c0) = true := by
    simp [isClientError, h1a, h1b, h1c]
  refine ⟨?_, ?_, ?_⟩
  · unfold withRetry withRetryAux
    rw [h1]
    simp [hce]
  · simp [withRetry, withRetryAux, h2, isClientError, jsRetryAfter]
  · simp [withRetry, withRetryAux, h3, isClientError, jsRetryAfter]

/-- Witness for C8 at three concrete operations. -/
theorem retry_policy_behavior_witness :
    withRetry (fun _ => .err (some 404) none) 3 1000
      = ⟨.thrown (some 404) none, []⟩ :=
  (retry_policy_behavior (fun _ => .err (some 404) none)
    (fun _ => .err (some 429) (some 2)) (fun _ => .err (some 500) none)
    1000 404 none rfl (by decide) (by decide) (by decide)
    (fun _ => rfl) (fun _ => rfl)).1

/-- The expiration loop fully characterized: every selected row is processed
in order, a throwing row is logged and skipped without halting the rest, a
non-throwing row is set EXPIRED, and the revoke call carries the literal
reason string of the source. -/
theorem expirationLoop_spec (throwsOn : Nat → Bool) (l : List ExpiringSub) :
    expirationLoop throwsOn l =
      ⟨l.map (fun s => if throwsOn s.id then s else expireSubscription s),
       (l.filter (fun s => !throwsOn s.id && hasLinkedChannel s)).map
         (fun s => (s.id, "Subscription expired")),
       (l.filter (fun s => throwsOn s.id)).map (fun s => s.id)⟩ := by
  induction l with
  | nil => rfl
  | cons s rest ih =>
    unfold expirationLoop
    rw [ih]
    by_cases h : throwsOn s.id <;> by_cases h2 : hasLinkedChannel s <;>
      simp [h, h2, List.filter_cons]

/-- C9 (amended): the hourly sweep selects exactly the subscriptions with
status ACTIVE and period end strictly before now; each selected subscriber
that processes without a failure is set EXPIRED and, when its bot has a linked
channel, revoke is invoked with reason "Subscription expired" (not the literal
"expired"); a subscriber whose processing throws is only logged, and every
other selected subscriber is still processed. -/
theorem sweep_expires_and_revokes (subs : List ExpiringSub) (now : Int)
    (throwsOn : Nat → Bool) :
    (∀ s, s ∈ getExpiredSubscriptions subs now ↔
      (s ∈ subs ∧ s.subscriptionStatus = "ACTIVE" ∧
        ∃ e, s.subscriptionEndDate = some e ∧ e < now)) ∧
    (runExpirationCheck subs now throwsOn).processed
      = (getExpiredSubscriptions subs now).map
          (fun s => if throwsOn s.id then s else expireSubscription s) ∧
    (runExpirationCheck subs now throwsOn).revokes
      = ((getExpiredSubscriptions subs now).filter
          (fun s => !throwsOn s.id && hasLinkedChannel s)).map
          (fun s => (s.id, "Subscription expired")) ∧
    (runExpirationCheck subs now throwsOn).errorsLogged
      = ((getExpiredSubscriptions subs now).filter (fun s => throwsOn s.id)).map
          (fun s => s.id) := by
  refine ⟨?_, ?_, ?_, ?_⟩
  · intro s
    simp only [getExpiredSubscriptions, List.mem_filter, Bool.and_eq_true, beq_iff_eq]
    constructor
    · rintro ⟨hm, hs, he⟩
      refine ⟨hm, hs, ?_⟩
      cases h : s.subscriptionEndDate with
      | none => rw [h] at he; simp at he
      | some e => rw [h] at he; exact ⟨e, rfl, by simpa using he⟩
    · rintro ⟨hm, hs, e, he, hlt⟩
      exact ⟨hm, hs, by rw [he]; simpa⟩
  · unfold runExpirationCheck; rw [expirationLoop_spec]
  · unfold runExpirationCheck; rw [expirationLoop_spec]
  · unfold runExpirationCheck; rw [expirationLoop_spec]

/-- Counterexample for C9: one concrete expired subscriber with a linked
channel is revoked with the reason string "Subscription expired", which is not
the literal reason "expired" the claim states. -/
theorem sweep_revoke_reason_literal :
    runExpirationCheck [expSubW] 1 (fun _ => false)
      = ⟨[⟨1, 555, "EXPIRED", some 0, some ⟨7, some 77, "tok"⟩⟩],
         [(1, "Subscription expired")], []⟩ ∧
    ("Subscription expired" : String) ≠ "expired" := by
  decide

/-- C10: calling the manual override on a transaction that is already
CONFIRMED returns the failure result with error "Payment already confirmed"
and leaves the database unchanged, and a reconciliation heal that lands on
such a transaction books it as an error rather than a no-op success. -/
theorem override_already_confirmed_fails (db : DB) (now : Int) (txid : Nat)
    (adminId : String) (tx : Transaction)
    (hfind : findTxById db txid = some tx)
    (hconf : tx.paymentStatus = "CONFIRMED") :
    manuallyProcessPayment db now txid adminId
      = (⟨false, some "Payment already confirmed"⟩, db) ∧
    ∀ (fetchedStatus : String) (paid : Rat),
      asciiLower fetchedStatus ∈ reconcileHealSet →
      reconcileStep db now tx fetchedStatus paid = (⟨0, 1⟩, db) := by
  have hid : tx.id = txid := by
    have hp := List.find?_some hfind
    simpa [beq_iff_eq] using hp
  have hM : ∀ a, manuallyProcessPayment db now txid a
      = (⟨false, some "Payment already confirmed"⟩, db) := by
    intro a
    unfold manuallyProcessPayment
    simp [hfind, hconf]
  refine ⟨hM adminId, ?_⟩
  intro fs paid hmem
  unfold reconcileStep
  rw [if_pos hmem, hid, hM "SYSTEM_RECONCILIATION"]
  rfl

/-- Witness for C10 at the concrete already-confirmed fixture database. -/
theorem override_already_confirmed_fails_witness :
    manuallyProcessPayment dbC 5 1 "adm"
      = (⟨false, some "Payment already confirmed"⟩, dbC) :=
  (override_already_confirmed_fails dbC 5 1 "adm" txC (by decide) rfl).1

end Subscribehub
